import Mathlib

/-!
Verification development for the `mqttcommander` repository (Tasmota fleet
management over MQTT).

The Python sources are shallowly embedded below:
* JSON-ish Python values are modelled by `PyVal` (floats appear only as
  decimal literals that are never computed with, so they are kept as
  `mantissa × 10^(-exponent)` pairs);
* pydantic models become structures with explicit parse functions that
  mirror the `AliasChoices` / `AliasPath` resolution of the source;
* fallible Python code (assertions, `KeyError`, pydantic validation
  errors) is modelled with `Option`, `none` meaning a raised exception;
* the MQTT broker is abstracted by an environment `MqttEnv` supplying the
  outcome of each publish and the stat-topic response for each command
  (the source's condition-variable wait machinery collapses to "the
  response is available or it is not");
* `del`/attribute mutation is modelled by explicit state passing; the
  in-place mutation of devices by the dispatch loop is modelled by
  substituting updated devices back at their original list positions.
-/

/-- Python/JSON values as they occur in MQTT payloads and command values.
`pfloat m e` stands for the decimal literal `m * 10 ^ (-e : Int)`; the
repository never computes with floats, it only stores and forwards them. -/
inductive PyVal where
  | pnone : PyVal
  | pbool : Bool → PyVal
  | pint : Int → PyVal
  | pfloat : Int → Nat → PyVal
  | pstr : String → PyVal
  | plist : List PyVal → PyVal
  | pdict : List (String × PyVal) → PyVal
deriving Repr

namespace PyVal

/-- The entries of a Python dict (empty for non-dicts, mirroring
`isinstance(x, dict)` guards that fall through). -/
def dictElems : PyVal → List (String × PyVal)
  | .pdict kvs => kvs
  | _ => []

/-- The elements of a Python list (empty for non-lists). -/
def listElems : PyVal → List PyVal
  | .plist xs => xs
  | _ => []

end PyVal

/-- First binding of key `k` in an association list modelling a Python
dict lookup (`d.get(k)` / `d[k]`); Python dict keys are unique, so taking
the first binding is exact. -/
def dictGet (kvs : List (String × PyVal)) (k : String) : Option PyVal :=
  match kvs.find? (fun kv => kv.1 == k) with
  | some kv => some kv.2
  | none => none

/-- Python `d[k] = v`: overwrite in place if the key exists (keeping its
position, as Python dicts preserve insertion order), else append. -/
def dictSet (kvs : List (String × PyVal)) (k : String) (v : PyVal) :
    List (String × PyVal) :=
  match kvs with
  | [] => [(k, v)]
  | kv :: rest =>
    if kv.1 == k then (k, v) :: rest else kv :: dictSet rest k v

/-- Python `base.update(**u)`: merge every binding of `u` into `base`,
overwriting existing keys. -/
def dictUpdate (base u : List (String × PyVal)) : List (String × PyVal) :=
  u.foldl (fun acc kv => dictSet acc kv.1 kv.2) base

/-- Python `s.split(sep)` for a single-character separator (the only kind
the repository uses): splits at every occurrence, keeping empty parts, so
the result always has one more part than there are separators. -/
def strSplitChar (sep : Char) : List Char → List String
  | [] => [""]
  | c :: rest =>
    let r := strSplitChar sep rest
    if c = sep then "" :: r
    else
      match r with
      | g :: gs => (String.mk (c :: g.data)) :: gs
      | [] => [String.mk [c]]

/-- Python `s.split(sep)` on strings (single-character separator). -/
def pySplit (s : String) (sep : Char) : List String :=
  strSplitChar sep s.data

/-- Python `s.replace(pat, rep)` for a single-character pattern (the only
kind the repository uses): every occurrence of `pat` is replaced by `rep`. -/
def pyReplaceChar (s : String) (pat : Char) (rep : String) : String :=
  String.mk (s.data.foldr (fun c acc => if c = pat then rep.data ++ acc else c :: acc) [])

/-- Python `s.startswith(p)`. -/
def strStartsWith (s p : String) : Bool :=
  p.data.isPrefixOf s.data

/-- Python `s.endswith(p)`. -/
def strEndsWith (s p : String) : Bool :=
  p.data.reverse.isPrefixOf s.data.reverse

/-- Python truthiness of an optional string (`None` and `""` are falsy). -/
def pyTruthyOptStr : Option String → Bool
  | none => false
  | some s => s != ""

/-- Python `str(x)` for an optional value interpolated into an f-string:
`None` renders as the literal `"None"`. -/
def pyStrOpt : Option String → String
  | none => "None"
  | some s => s

/-- Python `int(s)` on a decimal string: optional surrounding whitespace,
optional sign, at least one digit; `none` models the raised `ValueError`. -/
def pyParseInt (s : String) : Option Int :=
  let chars := s.data.dropWhile (fun c => c == ' ' || c == '\t')
  let chars := (chars.reverse.dropWhile (fun c => c == ' ' || c == '\t')).reverse
  let (sign, digits) :=
    match chars with
    | '-' :: rest => ((-1 : Int), rest)
    | '+' :: rest => ((1 : Int), rest)
    | rest => ((1 : Int), rest)
  if digits = [] then none
  else if digits.all Char.isDigit then
    some (sign * (digits.foldl (fun acc c => acc * 10 + (c.toNat - '0'.toNat)) 0 : Nat))
  else none

/-- Python `repr`/`str` of an `Optional[int]` value. -/
def pyReprOptInt : Option Int → String
  | none => "None"
  | some n => toString n

/-- Python `str` of a list of `Optional[int]` values:
`"[a, b, c]"` with `", "` separators. -/
def pyStrIntList (xs : List (Option Int)) : String :=
  "[" ++ String.intercalate ", " (xs.map pyReprOptInt) ++ "]"

/- ---------------------------------------------------------------------
`mqttcommander/models.py`
--------------------------------------------------------------------- -/

/-- `models.TasmotaTimeZoneDSTSTD`: DST/STD rule of the Tasmota timezone
configuration, all fields `Optional[int]`. -/
structure TasmotaTimeZoneDSTSTD where
  hemisphere : Option Int
  week : Option Int
  month : Option Int
  day : Option Int
  hour : Option Int
  offset : Option Int
deriving DecidableEq, Repr

namespace TasmotaTimeZoneDSTSTD

/-- `TasmotaTimeZoneDSTSTD.to_tasmota_command_string`:
`str([hemisphere, week, month, day, hour, offset]).replace(" ", "")`. -/
def to_tasmota_command_string (t : TasmotaTimeZoneDSTSTD) : String :=
  pyReplaceChar (pyStrIntList [t.hemisphere, t.week, t.month, t.day, t.hour, t.offset]) ' ' ""

/-- `TasmotaTimeZoneDSTSTD.from_tasmota_command_string`: split on `","`,
assert exactly 6 parts, convert each with `int(...)`. `none` models the
`AssertionError`/`ValueError` raised on malformed input. -/
def from_tasmota_command_string (values_comma_separated : String) :
    Option TasmotaTimeZoneDSTSTD :=
  let data := pySplit values_comma_separated ','
  if h6 : data.length = 6 then
    match pyParseInt (data.get ⟨0, by omega⟩), pyParseInt (data.get ⟨1, by omega⟩),
      pyParseInt (data.get ⟨2, by omega⟩), pyParseInt (data.get ⟨3, by omega⟩),
      pyParseInt (data.get ⟨4, by omega⟩), pyParseInt (data.get ⟨5, by omega⟩) with
    | some a, some b, some c, some d, some e, some f =>
      some ⟨some a, some b, some c, some d, some e, some f⟩
    | _, _, _, _, _, _ => none
  else none

end TasmotaTimeZoneDSTSTD

/-- Python `s.find(c)`: index of the first occurrence, `-1` if absent. -/
def pyFindCharAux (c : Char) : Nat → List Char → Int
  | _, [] => -1
  | i, x :: rest => if x = c then (i : Int) else pyFindCharAux c (i + 1) rest

/-- Python `s.find(c)` on strings. -/
def pyFindChar (s : String) (c : Char) : Int :=
  pyFindCharAux c 0 s.data

/-- Python truthiness of an arbitrary value (`bool(v)`). -/
def pyFalsy : PyVal → Bool
  | .pnone => true
  | .pbool b => !b
  | .pint n => n == 0
  | .pfloat m _ => m == 0
  | .pstr s => s == ""
  | .plist xs => xs.isEmpty
  | .pdict kvs => kvs.isEmpty

/-- First alias of a pydantic `AliasChoices(...)` list that is present in
the payload wins (pydantic resolves choices left to right). -/
def aliasGet (kvs : List (String × PyVal)) : List String → Option PyVal
  | [] => none
  | a :: rest =>
    match dictGet kvs a with
    | some v => some v
    | none => aliasGet kvs rest

/-- Validate an `Optional[str]` field value: absent / JSON null stay
absent, a string is accepted, anything else is a pydantic validation
error (outer `none`). -/
def vOptStr : Option PyVal → Option (Option String)
  | none => some none
  | some .pnone => some none
  | some (.pstr s) => some (some s)
  | some _ => none

/-- Validate an `Optional[int]` field value. -/
def vOptInt : Option PyVal → Option (Option Int)
  | none => some none
  | some .pnone => some none
  | some (.pint n) => some (some n)
  | some _ => none

/-- Validate an `Optional[int]` field with `Field(ge=lo, le=hi)` bounds. -/
def vOptIntRange (lo hi : Int) (v : Option PyVal) : Option (Option Int) :=
  match vOptInt v with
  | some (some n) => if lo ≤ n ∧ n ≤ hi then some (some n) else none
  | r => r

/-- Validate an `Optional[Literal["ON", "OFF"]]` field value. -/
def vOptOnOff : Option PyVal → Option (Option String)
  | none => some none
  | some .pnone => some none
  | some (.pstr s) => if s = "ON" ∨ s = "OFF" then some (some s) else none
  | some _ => none

/-- A payload value that must be a string. -/
def strOfPy : PyVal → Option String
  | .pstr s => some s
  | _ => none

/-- Validate an `Optional[List[str]]` field value. -/
def vOptStrList : Option PyVal → Option (Option (List String))
  | none => some none
  | some .pnone => some none
  | some (.plist xs) => (xs.mapM strOfPy).map some
  | some _ => none

/-- Does the string contain 7 consecutive characters drawn from
`0`, `1`, `|`, `-`? This is pydantic's unanchored regex search for the
`days` pattern `[1|0|-]{7}` of `TasmotaTimerConfig`. -/
def containsSevenRun : List Char → Bool
  | [] => false
  | c :: rest =>
    (((c :: rest).take 7).length == 7 &&
      ((c :: rest).take 7).all (fun ch => ch = '0' || ch = '1' || ch = '|' || ch = '-'))
    || containsSevenRun rest

/-- Validate the `days` field (`Optional[str]` with pattern `[1|0|-]{7}`). -/
def vOptDays : Option PyVal → Option (Option String)
  | none => some none
  | some .pnone => some none
  | some (.pstr s) => if containsSevenRun s.data then some (some s) else none
  | some _ => none

/-- `models.TasmotaTimerConfig`: validated Tasmota timer configuration.
The `action` field is range-validated `1..16` exactly as in the source
(copied from `output`), although its documented semantic domain is 0–3. -/
structure TasmotaTimerConfig where
  enable : Option Int
  mode : Option Int
  time : Option String
  window : Option Int
  days : Option String
  repeats : Option Int
  output : Option Int
  action : Option Int
deriving DecidableEq, Repr

/-- pydantic validation of a `TasmotaTimerConfig` from a payload value
(`none` = validation error; nested-model validation requires a dict). -/
def TasmotaTimerConfig.parse (v : PyVal) : Option TasmotaTimerConfig :=
  match v with
  | .pdict kvs => do
    let enable ← vOptIntRange 0 1 (aliasGet kvs ["Enable", "enable"])
    let mode ← vOptIntRange 0 2 (aliasGet kvs ["Mode", "mode"])
    let time ← vOptStr (aliasGet kvs ["Time", "time"])
    let window ← vOptIntRange 0 15 (aliasGet kvs ["Window", "window"])
    let days ← vOptDays (aliasGet kvs ["Days", "days"])
    let repeats ← vOptIntRange 0 1 (aliasGet kvs ["Repeat", "repeat"])
    let output ← vOptIntRange 1 16 (aliasGet kvs ["Output", "output"])
    let action ← vOptIntRange 1 16 (aliasGet kvs ["Action", "action"])
    pure ⟨enable, mode, time, window, days, repeats, output, action⟩
  | _ => none

/-- pydantic validation of a `TasmotaTimeZoneDSTSTD` from a payload value
(nested-model validation requires a dict). -/
def TasmotaTimeZoneDSTSTD.parse (v : PyVal) : Option TasmotaTimeZoneDSTSTD :=
  match v with
  | .pdict kvs => do
    let hemisphere ← vOptInt (aliasGet kvs ["Hemisphere", "hemisphere"])
    let week ← vOptInt (aliasGet kvs ["Week", "week"])
    let month ← vOptInt (aliasGet kvs ["Month", "month"])
    let day ← vOptInt (aliasGet kvs ["Day", "day"])
    let hour ← vOptInt (aliasGet kvs ["Hour", "hour"])
    let offset ← vOptInt (aliasGet kvs ["Offset", "offset"])
    pure ⟨hemisphere, week, month, day, hour, offset⟩
  | _ => none

/-- Render an `Optional[int]` as a dumped Python value. -/
def optIntPy : Option Int → PyVal
  | none => .pnone
  | some n => .pint n

/-- `model_dump()` of a DST/STD rule: a dict of its (lowercase) fields. -/
def TasmotaTimeZoneDSTSTD.model_dump (t : TasmotaTimeZoneDSTSTD) : PyVal :=
  .pdict [("hemisphere", optIntPy t.hemisphere), ("week", optIntPy t.week),
    ("month", optIntPy t.month), ("day", optIntPy t.day),
    ("hour", optIntPy t.hour), ("offset", optIntPy t.offset)]

/-- A Python float as it occurs in this repository: a decimal literal
`m * 10 ^ (-e : Int)` that is stored and forwarded but never computed with. -/
structure PyFloat where
  m : Int
  e : Nat
deriving DecidableEq, Repr

/-- The `int | str` union type of `TasmotaTimezoneConfig.timezone`
(`99` or `"+01:00"`). -/
inductive TZVal where
  | tint : Int → TZVal
  | tstr : String → TZVal
deriving DecidableEq, Repr

/-- A timezone value as a Python value. -/
def TZVal.py : TZVal → PyVal
  | .tint n => .pint n
  | .tstr s => .pstr s

/-- Validate an `Optional[float]` field value (pydantic lax mode coerces
an int to a float). -/
def vOptFloat : Option PyVal → Option (Option PyFloat)
  | none => some none
  | some .pnone => some none
  | some (.pfloat m e) => some (some ⟨m, e⟩)
  | some (.pint n) => some (some ⟨n, 0⟩)
  | some _ => none

/-- Validate the `Optional[int | str]` timezone field value (pydantic
smart-union keeps an int an int and a str a str). -/
def vOptTz : Option PyVal → Option (Option TZVal)
  | none => some none
  | some .pnone => some none
  | some (.pint n) => some (some (.tint n))
  | some (.pstr s) => some (some (.tstr s))
  | some _ => none

/-- Validate an optional nested DST/STD rule field value. -/
def vOptDst (v : Option PyVal) : Option (Option TasmotaTimeZoneDSTSTD)  :=
  match v with
  | none => some none
  | some .pnone => some none
  | some u => (TasmotaTimeZoneDSTSTD.parse u).map some

/-- `models.TasmotaTimezoneConfig`: full timezone configuration. -/
structure TasmotaTimezoneConfig where
  latitude : Option PyFloat
  longitude : Option PyFloat
  timedst : Option TasmotaTimeZoneDSTSTD
  timestd : Option TasmotaTimeZoneDSTSTD
  timezone : Option TZVal
deriving DecidableEq, Repr

/-- pydantic validation of a `TasmotaTimezoneConfig` from a dict payload,
with the `AliasChoices` of the source. -/
def TasmotaTimezoneConfig.parse (kvs : List (String × PyVal)) :
    Option TasmotaTimezoneConfig := do
  let latitude ← vOptFloat (aliasGet kvs ["Latitude", "latitude"])
  let longitude ← vOptFloat (aliasGet kvs ["Longitude", "longitude"])
  let timedst ← vOptDst (aliasGet kvs ["TimeDst", "timedst"])
  let timestd ← vOptDst (aliasGet kvs ["TimeStd", "timestd"])
  let timezone ← vOptTz (aliasGet kvs ["Timezone", "timezone"])
  pure ⟨latitude, longitude, timedst, timestd, timezone⟩

/-- `TasmotaTimezoneConfig.as_tasmota_command_list`: asserts that all five
values are present (`none` models the `AssertionError`), then returns
`[latitude, longitude, dst-string, std-string, timezone]`. -/
def TasmotaTimezoneConfig.as_tasmota_command_list (c : TasmotaTimezoneConfig) :
    Option (List PyVal) :=
  match c.latitude, c.longitude, c.timedst, c.timestd, c.timezone with
  | some la, some lo, some d, some s, some tz =>
    some [.pfloat la.m la.e, .pfloat lo.m lo.e,
      .pstr d.to_tasmota_command_string, .pstr s.to_tasmota_command_string, tz.py]
  | _, _, _, _, _ => none

/-- Render an optional float as a dumped Python value. -/
def optFloatPy : Option PyFloat → PyVal
  | none => .pnone
  | some f => .pfloat f.m f.e

/-- Render an optional DST/STD rule as a dumped Python value. -/
def optDstPy : Option TasmotaTimeZoneDSTSTD → PyVal
  | none => .pnone
  | some t => t.model_dump

/-- Render an optional timezone value as a dumped Python value. -/
def optTzPy : Option TZVal → PyVal
  | none => .pnone
  | some tz => tz.py

/-- `model_dump()` of a timezone configuration, used as the seed of the
timezone-response accumulator in `send_cmds_to_online_tasmotas`. -/
def TasmotaTimezoneConfig.model_dump (c : TasmotaTimezoneConfig) :
    List (String × PyVal) :=
  [("latitude", optFloatPy c.latitude), ("longitude", optFloatPy c.longitude),
    ("timedst", optDstPy c.timedst), ("timestd", optDstPy c.timestd),
    ("timezone", optTzPy c.timezone)]

/-- `models.TasmotaRule`: on-device rule configuration/state. -/
structure TasmotaRule where
  state : Option String
  once : Option String
  stoponerror : Option String
  length : Option Int
  rules : Option String
deriving DecidableEq, Repr

/-- `TasmotaRule(**value)`: keyword expansion requires a dict, then
pydantic validates each field through its `AliasChoices`. -/
def TasmotaRule.parse (v : PyVal) : Option TasmotaRule :=
  match v with
  | .pdict kvs => do
    let state ← vOptOnOff (aliasGet kvs ["State", "state"])
    let once ← vOptOnOff (aliasGet kvs ["Once", "once"])
    let stoponerror ← vOptOnOff (aliasGet kvs ["StopOnError", "stoponerror"])
    let length ← vOptInt (aliasGet kvs ["Length", "length"])
    let rules ← vOptStr (aliasGet kvs ["Rules", "rules"])
    pure ⟨state, once, stoponerror, length, rules⟩
  | _ => none

/-- `models.TasmotaDeviceSensors`: the required report time of a sensors
payload (datetime parsing of the external library is abstracted to the
raw string). -/
structure TasmotaDeviceSensors where
  time : String
deriving DecidableEq, Repr

/-- pydantic validation of `TasmotaDeviceSensors` from a dict payload:
the `time` field is required, resolved through
`AliasChoices("time", "Time", AliasPath("sn", "Time"))`. -/
def TasmotaDeviceSensors.parse (kvs : List (String × PyVal)) :
    Option TasmotaDeviceSensors :=
  match (aliasGet kvs ["time", "Time"]).orElse
      (fun _ => (dictGet kvs "sn").bind (fun v => dictGet v.dictElems "Time")) with
  | some (.pstr s) => some ⟨s⟩
  | _ => none

/-- `mac_no_colon_to_colon` groups characters in strides of two,
mirroring the `StringIO` loop of the source. -/
def macGroups2 : List Char → List (List Char)
  | [] => []
  | [a] => [[a]]
  | a :: b :: rest => [a, b] :: macGroups2 rest

/-- `TasmotaDeviceConfig.mac_no_colon_to_colon`: a MAC whose first colon
is already at index 2 passes through; otherwise a colon is inserted after
every two characters. -/
def mac_no_colon_to_colon (mac : String) : String :=
  if pyFindChar mac ':' = 2 then mac
  else String.intercalate ":" ((macGroups2 mac.data).map String.mk)

/-- `TasmotaDeviceConfig.validate_mac` (before-validator): falsy input
becomes `None`, otherwise the MAC is normalized. The `MacAddress` type
validation of the external `pydantic_extra_types` library is abstracted to
accepting any normalized string. -/
def validate_mac : Option PyVal → Option (Option String)
  | none => some none
  | some v =>
    if pyFalsy v then some none
    else
      match v with
      | .pstr s => some (some (mac_no_colon_to_colon s))
      | _ => none

/-- A timer slot of a device configuration: pydantic parsing stores a
validated `TasmotaTimerConfig`, while the command-response path of
`send_cmds_to_online_tasmotas` assigns the raw response value without
constructing a timer object (the asymmetry is in the source). -/
inductive TimerField where
  | parsed : TasmotaTimerConfig → TimerField
  | raw : PyVal → TimerField
deriving Repr

/-- Validate an optional nested timer field value. -/
def vOptTimer : Option PyVal → Option (Option TimerField)
  | none => some none
  | some .pnone => some none
  | some u => (TasmotaTimerConfig.parse u).map (fun t => some (.parsed t))

/-- `models.TasmotaDeviceConfig`: configuration and metadata of one
device. `teleperiod`, `powerdelta1` and `setoption4` are kept as raw
Python values because the response path of the commander assigns the raw
payload field into them without re-validation. -/
structure TasmotaDeviceConfig where
  friendly_name : Option String
  device_name : Option String
  hostname : Option String
  manufacturer_description : Option String
  ip : Option String
  mac : Option String
  offline_msg : Option String
  online_msg : Option String
  state : Option (List String)
  topic : Option String
  tp : Option (List String)
  software_version : Option String
  timezoneconfig : Option TasmotaTimezoneConfig
  teleperiod : Option PyVal
  powerdelta1 : Option PyVal
  setoption4 : Option PyVal
  timer1 : Option TimerField
  timer2 : Option TimerField
  timer3 : Option TimerField
  timer4 : Option TimerField
  otaurl : Option String
deriving Repr

/-- `TasmotaDeviceConfig()`: the all-optional empty configuration. -/
def TasmotaDeviceConfig.empty : TasmotaDeviceConfig :=
  ⟨none, none, none, none, none, none, none, none, none, none, none,
    none, none, none, none, none, none, none, none, none, none⟩

/-- Validate an optional nested timezone-config field value. -/
def vOptTzConfig : Option PyVal → Option (Option TasmotaTimezoneConfig)
  | none => some none
  | some .pnone => some none
  | some (.pdict kvs) => (TasmotaTimezoneConfig.parse kvs).map some
  | some _ => none

/-- Validation of the identity fields of `TasmotaDeviceConfig`. Every
`validation_alias` here and in the other per-group validators below is
reproduced from the source; the `IPv4Address` and `HttpUrl` validations
of external libraries are abstracted to accepting strings. -/
def parseIdFields (kvs : List (String × PyVal)) :
    Option (Option String × Option String × Option String × Option String ×
      Option String × Option String) := do
  let friendly_name ← vOptStr ((dictGet kvs "friendly_name").orElse
    (fun _ => (dictGet kvs "fn").bind (fun v => v.listElems.get? 0)))
  let device_name ← vOptStr (aliasGet kvs ["dn", "device_name"])
  let hostname ← vOptStr (aliasGet kvs ["hn", "hostname"])
  let manufacturer_description ← vOptStr (aliasGet kvs ["md", "manufacturer_description"])
  let ip ← vOptStr (dictGet kvs "ip")
  let mac ← validate_mac (dictGet kvs "mac")
  pure (friendly_name, device_name, hostname, manufacturer_description, ip, mac)

/-- Validation of the message/topic/version fields of `TasmotaDeviceConfig`. -/
def parseTopicFields (kvs : List (String × PyVal)) :
    Option (Option String × Option String × Option (List String) × Option String ×
      Option (List String) × Option String) := do
  let offline_msg ← vOptStr (aliasGet kvs ["ofln", "offline_msg"])
  let online_msg ← vOptStr (aliasGet kvs ["onln", "online_msg"])
  let state ← vOptStrList (dictGet kvs "state")
  let topic ← vOptStr (aliasGet kvs ["t", "topic"])
  let tp ← vOptStrList (dictGet kvs "tp")
  let software_version ← vOptStr (aliasGet kvs ["sw", "software_version"])
  pure (offline_msg, online_msg, state, topic, tp, software_version)

/-- Validation of the timezone/telemetry/option fields of
`TasmotaDeviceConfig`. -/
def parseTuningFields (kvs : List (String × PyVal)) :
    Option (Option TasmotaTimezoneConfig × Option PyVal × Option PyVal × Option PyVal) := do
  let timezoneconfig ← vOptTzConfig (dictGet kvs "timezoneconfig")
  let teleperiod ← vOptInt (aliasGet kvs ["TelePeriod", "teleperiod"])
  let powerdelta1 ← vOptInt (aliasGet kvs ["PowerDelta1", "powerdelta1"])
  let setoption4 ← vOptOnOff (aliasGet kvs ["SetOption4", "setoption4"])
  pure (timezoneconfig, teleperiod.map PyVal.pint, powerdelta1.map PyVal.pint,
    setoption4.map PyVal.pstr)

/-- Validation of the timer and OTA-url fields of `TasmotaDeviceConfig`.
The aliases of `timer3` are `("Timer2", "timer3")` exactly as written at
`models.py:234`. -/
def parseTimerFields (kvs : List (String × PyVal)) :
    Option (Option TimerField × Option TimerField × Option TimerField ×
      Option TimerField × Option String) := do
  let timer1 ← vOptTimer (aliasGet kvs ["Timer1", "timer1"])
  let timer2 ← vOptTimer (aliasGet kvs ["Timer2", "timer2"])
  let timer3 ← vOptTimer (aliasGet kvs ["Timer2", "timer3"])
  let timer4 ← vOptTimer (aliasGet kvs ["Timer4", "timer4"])
  let otaurl ← vOptStr (aliasGet kvs ["otaurl", "ota_url"])
  pure (timer1, timer2, timer3, timer4, otaurl)

/-- pydantic validation of the full `TasmotaDeviceConfig` from a discovery
dict payload, combining the per-group validators above. -/
def TasmotaDeviceConfig.parse (kvs : List (String × PyVal)) :
    Option TasmotaDeviceConfig := do
  let (friendly_name, device_name, hostname, manufacturer_description, ip, mac)
    ← parseIdFields kvs
  let (offline_msg, online_msg, state, topic, tp, software_version)
    ← parseTopicFields kvs
  let (timezoneconfig, teleperiod, powerdelta1, setoption4) ← parseTuningFields kvs
  let (timer1, timer2, timer3, timer4, otaurl) ← parseTimerFields kvs
  pure (TasmotaDeviceConfig.mk friendly_name device_name hostname
    manufacturer_description ip mac offline_msg online_msg state topic tp
    software_version timezoneconfig teleperiod powerdelta1 setoption4
    timer1 timer2 timer3 timer4 otaurl)

/-- `models.TasmotaDevice`: aggregate record for one device. The
`lwt_current_value` field is declared `Optional[Literal["Online",
"Offline"]]` in the source, but direct attribute assignment (used by the
discovery LWT pass) bypasses pydantic validation, so the model keeps the
raw assigned payload; `lwtLiteralValid` below captures what model
validation itself accepts. -/
structure TasmotaDevice where
  tasmota_config : Option TasmotaDeviceConfig
  tasmota_sensors : Option TasmotaDeviceSensors
  tasmota_rule1 : Option TasmotaRule
  tasmota_rule2 : Option TasmotaRule
  tasmota_rule3 : Option TasmotaRule
  lwt_current_value : Option PyVal
deriving Repr

/-- `TasmotaDevice()`: the empty aggregate created during discovery. -/
def TasmotaDevice.empty : TasmotaDevice :=
  ⟨none, none, none, none, none, none⟩

/-- What pydantic model validation accepts for `lwt_current_value`
(`Optional[Literal["Online", "Offline"]]`). -/
def lwtLiteralValid : Option PyVal → Bool
  | none => true
  | some .pnone => true
  | some (.pstr s) => s == "Online" || s == "Offline"
  | some _ => false

/-- Python `lwt_current_value == s` for a string `s`: only a string LWT
value can compare equal. -/
def lwtEqStr : Option PyVal → String → Bool
  | some (.pstr v), s => v == s
  | _, _ => false

/-- `TasmotaDevice.is_online(lwt_online_default_value)`: the per-device
`online_msg` override applies only when the config is present and
`online_msg` is truthy (non-empty); otherwise the default is compared. -/
def TasmotaDevice.is_online_with (d : TasmotaDevice)
    (lwt_online_default_value : String) : Bool :=
  match d.tasmota_config with
  | some cfg =>
    if pyTruthyOptStr cfg.online_msg then
      lwtEqStr d.lwt_current_value (cfg.online_msg.getD "")
    else
      lwtEqStr d.lwt_current_value lwt_online_default_value
  | none => lwtEqStr d.lwt_current_value lwt_online_default_value

/-- `TasmotaDevice.is_online()` with the default argument `"Online"`. -/
def TasmotaDevice.is_online (d : TasmotaDevice) : Bool :=
  d.is_online_with "Online"

/- ---------------------------------------------------------------------
`Helper.py`
--------------------------------------------------------------------- -/

/-- The list-resize step of `update_deep`: append `None` while the base is
shorter than the update, pop while it is longer (only one of the two
`while` loops of the source can run, so append-then-truncate is exact). -/
def resizeToLen (bs : List PyVal) (n : Nat) : List PyVal :=
  (bs ++ List.replicate (n - bs.length) PyVal.pnone).take n

mutual

/-- `Helper.update_deep(base, u)`: recursively merge `u` into `base`.
A dict update replaces a non-dict base with `{}` and merges key-wise; a
list update resizes the base to the update's length and merges
position-wise; for any other update value the function body does nothing
and returns `base` unchanged. -/
def update_deep : PyVal → PyVal → PyVal
  | base, .pdict kvs => .pdict (updObj base.dictElems kvs)
  | base, .plist us => .plist (updArr (resizeToLen base.listElems us.length) us)
  | base, _ => base

/-- The dict branch of `update_deep`: for each update key in order,
containers recurse into `base.get(k, {})`, plain values overwrite. -/
def updObj : List (String × PyVal) → List (String × PyVal) → List (String × PyVal)
  | b, [] => b
  | b, (k, v) :: rest =>
    match v with
    | .pdict kvs =>
      updObj (dictSet b k (update_deep ((dictGet b k).getD (.pdict [])) (.pdict kvs))) rest
    | .plist us =>
      updObj (dictSet b k (update_deep ((dictGet b k).getD (.pdict [])) (.plist us))) rest
    | _ => updObj (dictSet b k v) rest

/-- The list branch of `update_deep` after resizing: position-wise merge,
where a `None` base slot is replaced by an empty container of the update
element's kind before recursing. -/
def updArr : List PyVal → List PyVal → List PyVal
  | [], _ => []
  | _ :: _, [] => []
  | b :: bs, v :: vs =>
    (match v with
     | .pdict kvs =>
       update_deep (match b with | .pnone => .pdict [] | _ => b) (.pdict kvs)
     | .plist us =>
       update_deep (match b with | .pnone => .plist [] | _ => b) (.plist us)
     | _ => v) :: updArr bs vs

end

/- ---------------------------------------------------------------------
`mqttcommander/tasmotacommander.py`
--------------------------------------------------------------------- -/

/-- A retained/received MQTT message (`MWMqttMessage`): topic and decoded
payload. -/
structure MWMqttMessage where
  topic : String
  value : PyVal
deriving Repr

/-- `MqttCommander.apply_topic_filter`: with no configured drop filter or
no messages the input is returned unchanged; otherwise, for each message
in order, the filter set is iterated and the message is appended once per
prefix its topic does not start with; an empty result collapses to the
"no messages" sentinel `none`. The iteration order of the Python set of
prefixes is modelled by the list order. -/
def apply_topic_filter (msg_topicname_startwith_drop_filter : Option (List String))
    (msgs : Option (List MWMqttMessage)) : Option (List MWMqttMessage) :=
  match msg_topicname_startwith_drop_filter, msgs with
  | none, m => m
  | some _, none => none
  | some fs, some ms =>
    let ret := ms.flatMap (fun msg =>
      fs.filterMap (fun sw =>
        if strStartsWith msg.topic sw then none else some msg))
    if ret.isEmpty then none else some ret

/-- Python `s.rfind(c)`: index of the last occurrence, `-1` if absent. -/
def pyRfindChar (s : String) (c : Char) : Int :=
  (s.data.foldl (fun acc ch =>
    (if ch = c then (acc.2 : Int) else acc.1, acc.2 + 1)) ((-1 : Int), (0 : Nat))).1

/-- Python slice `s[0:j]` with a possibly negative stop index. -/
def pySliceTo (s : String) (j : Int) : String :=
  let n := s.data.length
  String.mk (s.data.take (if j < 0 then ((n : Int) + j).toNat else j.toNat))

/-- Python slice `s[j:]` with a possibly negative start index. -/
def pySliceFrom (s : String) (j : Int) : String :=
  let n := s.data.length
  String.mk (s.data.drop (if j < 0 then ((n : Int) + j).toNat else j.toNat))

/-- Lookup in the `tdlookup` dict (key to index of the device record). -/
def idxGet (l : List (String × Nat)) (k : String) : Option Nat :=
  match l.find? (fun kv => kv.1 == k) with
  | some kv => some kv.2
  | none => none

/-- `tdlookup[key] = index`: overwrite or append, as for a Python dict. -/
def idxSet (l : List (String × Nat)) (k : String) (i : Nat) : List (String × Nat) :=
  match l with
  | [] => [(k, i)]
  | kv :: rest => if kv.1 == k then (k, i) :: rest else kv :: idxSet rest k i

/-- `tasmotacommander.TASMOTA_DEFAULT_TOPICS`. -/
def TASMOTA_DEFAULT_TOPICS : List String := ["tasmota/discovery/#", "tele/+/LWT"]

/-- `tasmotacommander.TASMOTA_DISCOVERY_TOPIC_BEGIN`. -/
def TASMOTA_DISCOVERY_TOPIC_BEGIN : String := "tasmota/discovery"

/-- `tasmotacommander.TASMOTA_LWT_TOPIC_BEGIN`. -/
def TASMOTA_LWT_TOPIC_BEGIN : String := "tele/"

/-- `tasmotacommander.TASMOTA_LWT_TOPIC_END`. -/
def TASMOTA_LWT_TOPIC_END : String := "LWT"

/-- The default drop-prefix set of `MqttCommander`
(`_msg_topicname_startwith_drop_filter_defaultset`), its single element
being `"tele/rtl_433"`. -/
def default_drop_filter : List String := ["tele/rtl_433"]

/-- The mutable state of the discovery aggregation: `ret` (the device
records in creation order, the store that Python's shared object
references alias into) and `tdlookup` (key to record index). -/
structure DiscoState where
  devices : List TasmotaDevice
  tdlookup : List (String × Nat)

/-- One message of the discovery pass (pass 1) of
`get_all_tasmota_devices_from_retained`: messages under
`tasmota/discovery` are keyed by the path segment before the trailing
`/config` or `/sensors`; a `config` payload must be a dict that parses as
`TasmotaDeviceConfig` and re-indexes the record under its declared topic
(asserting the topic is truthy); a `sensors` payload must parse as
`TasmotaDeviceSensors`. `none` models a raised assertion/validation
error. -/
def disco_pass1_step (st : DiscoState) (msg : MWMqttMessage) : Option DiscoState :=
  if strStartsWith msg.topic TASMOTA_DISCOVERY_TOPIC_BEGIN then
    let key0 := pySliceTo msg.topic (pyRfindChar msg.topic '/')
    let maclookupkey := pySliceFrom key0 (pyRfindChar key0 '/' + 1)
    let found := idxGet st.tdlookup maclookupkey
    let st1 :=
      match found with
      | some _ => st
      | none =>
        { devices := st.devices ++ [TasmotaDevice.empty],
          tdlookup := idxSet st.tdlookup maclookupkey st.devices.length }
    let idx := (idxGet st1.tdlookup maclookupkey).getD 0
    if strEndsWith msg.topic "config" then
      match msg.value with
      | .pdict kvs =>
        match TasmotaDeviceConfig.parse kvs with
        | some cfg =>
          let upd := { st1.devices.getD idx TasmotaDevice.empty with
            tasmota_config := some cfg }
          let st2 := { st1 with devices := st1.devices.set idx upd }
          if pyTruthyOptStr cfg.topic then
            some { st2 with tdlookup := idxSet st2.tdlookup (cfg.topic.getD "") idx }
          else none
        | none => none
      | _ => none
    else if strEndsWith msg.topic "sensors" then
      match msg.value with
      | .pdict kvs =>
        match TasmotaDeviceSensors.parse kvs with
        | some sens =>
          let upd := { st1.devices.getD idx TasmotaDevice.empty with
            tasmota_sensors := some sens }
          some { st1 with devices := st1.devices.set idx upd }
        | none => none
      | _ => none
    else some st1
  else some st

/-- One message of the liveness pass (pass 2): messages starting with
`tele/` and ending with `LWT` are keyed by the second `/`-segment of the
topic; a record is created with a minimal config (only `topic` set) when
the key is unknown, and the raw payload is assigned into
`lwt_current_value` (direct attribute assignment, no validation). -/
def disco_pass2_step (st : DiscoState) (msg : MWMqttMessage) : Option DiscoState :=
  if strStartsWith msg.topic TASMOTA_LWT_TOPIC_BEGIN &&
      strEndsWith msg.topic TASMOTA_LWT_TOPIC_END then
    match (pySplit msg.topic '/').get? 1 with
    | none => none
    | some mytopic =>
      let found := idxGet st.tdlookup mytopic
      let st1 :=
        match found with
        | some _ => st
        | none =>
          let newcfg := { TasmotaDeviceConfig.empty with topic := some mytopic }
          let newdev := { TasmotaDevice.empty with tasmota_config := some newcfg }
          { devices := st.devices ++ [newdev],
            tdlookup := idxSet st.tdlookup mytopic st.devices.length }
      let idx := (idxGet st1.tdlookup mytopic).getD 0
      let upd := { st1.devices.getD idx TasmotaDevice.empty with
        lwt_current_value := some msg.value }
      some { st1 with devices := st1.devices.set idx upd }
  else some st

/-- `MqttCommander.get_all_tasmota_devices_from_retained`, parameterized
by the retained messages the broker fetch would deliver (already decoded
with `rettype="json"`, string payloads falling back to raw strings). The
fetch first applies the commander's topic filter; with no surviving
messages the empty device list is returned; otherwise the two passes run
over the same batch. `none` models a raised assertion/validation error. -/
def get_all_tasmota_devices_from_retained
    (msg_topicname_startwith_drop_filter : Option (List String))
    (fetched : Option (List MWMqttMessage)) : Option (List TasmotaDevice) :=
  match apply_topic_filter msg_topicname_startwith_drop_filter fetched with
  | none => some []
  | some msgs => do
    let st1 ← msgs.foldlM disco_pass1_step ⟨[], []⟩
    let st2 ← msgs.foldlM disco_pass2_step st1
    pure st2.devices

/-- The default 15-command full-sync set of
`send_cmds_to_online_tasmotas`. -/
def default_commands : List String :=
  ["RULE1", "RULE2", "RULE3", "TIMEZONE", "LATITUDE", "LONGITUDE", "TIMEDST",
    "TIMESTD", "TELEPERIOD", "POWERDELTA1", "SETOPTION4", "TIMER1", "TIMER2",
    "TIMER3", "TIMER4"]

/-- Python `x or default` on an optional list (both `None` and the empty
list are falsy and fall back to the default). -/
def pyOrList {α : Type} (v : Option (List α)) (dflt : List α) : List α :=
  match v with
  | none => dflt
  | some [] => dflt
  | some l => l

/-- One `publish_one` call of the dispatch loop: the device topic as
interpolated into `cmnd/<topic>/<command>` and the value sent. -/
structure Publish where
  devTopic : String
  cmd : String
  value : Option PyVal
deriving Repr

/-- The full publish topic `cmnd/<topic>/<command>`. -/
def Publish.topic (p : Publish) : String :=
  "cmnd/" ++ p.devTopic ++ "/" ++ p.cmd

/-- The broker abstraction for one dispatch run: whether `publish_one`
succeeds for a publish topic, and the correlated response value (from
`stat/<topic>/RESULT` or `stat/<topic>/<mapped>`) for a publish topic,
`none` meaning the condition-variable waits time out. -/
structure MqttEnv where
  publish_ok : String → Bool
  response : String → Option PyVal

/-- `cmd_to_topic_map`: a command ending in a digit maps to the status
subtopic without the trailing digit, any other command maps to itself.
(Commands are never empty in the repository; an empty command maps to
itself.) -/
def cmd_res_name (cmd : String) : String :=
  match cmd.data.getLast? with
  | some c => if c.isDigit then String.mk cmd.data.dropLast else cmd
  | none => cmd

/-- Working state for the command loop over one online device: the device
record (mutated in place in the source) and the timezone-response
accumulator dict. -/
structure CmdStepState where
  td : TasmotaDevice
  tzconfig : List (String × PyVal)

/-- The response-application `match cmd:` block of
`send_cmds_to_online_tasmotas`. `RULE1..3` parse the payload field into a
`TasmotaRule`; the five timezone commands merge the whole payload into
the accumulator; `TELEPERIOD`/`POWERDELTA1`/`SETOPTION4`/`TIMER1..4`
assign the raw payload field; a missing expected field (`KeyError`) or a
failed rule validation is fatal (`none`); any other command name matches
no case and leaves the state unchanged. -/
def apply_cmd_response (cmd : String) (kvs : List (String × PyVal))
    (st : CmdStepState) : Option CmdStepState :=
  match st.td.tasmota_config with
  | none => none
  | some cfg =>
    match cmd with
    | "RULE1" => do
      let rv ← dictGet kvs "Rule1"
      let r ← TasmotaRule.parse rv
      pure { st with td := { st.td with tasmota_rule1 := some r } }
    | "RULE2" => do
      let rv ← dictGet kvs "Rule2"
      let r ← TasmotaRule.parse rv
      pure { st with td := { st.td with tasmota_rule2 := some r } }
    | "RULE3" => do
      let rv ← dictGet kvs "Rule3"
      let r ← TasmotaRule.parse rv
      pure { st with td := { st.td with tasmota_rule3 := some r } }
    | "TIMEZONE" => some { st with tzconfig := dictUpdate st.tzconfig kvs }
    | "LATITUDE" => some { st with tzconfig := dictUpdate st.tzconfig kvs }
    | "LONGITUDE" => some { st with tzconfig := dictUpdate st.tzconfig kvs }
    | "TIMEDST" => some { st with tzconfig := dictUpdate st.tzconfig kvs }
    | "TIMESTD" => some { st with tzconfig := dictUpdate st.tzconfig kvs }
    | "TELEPERIOD" => do
      let v ← dictGet kvs "TelePeriod"
      let cfg2 := { cfg with teleperiod := some v }
      pure { st with td := { st.td with tasmota_config := some cfg2 } }
    | "POWERDELTA1" => do
      let v ← dictGet kvs "PowerDelta1"
      let cfg2 := { cfg with powerdelta1 := some v }
      pure { st with td := { st.td with tasmota_config := some cfg2 } }
    | "SETOPTION4" => do
      let v ← dictGet kvs "SetOption4"
      let cfg2 := { cfg with setoption4 := some v }
      pure { st with td := { st.td with tasmota_config := some cfg2 } }
    | "TIMER1" => do
      let v ← dictGet kvs "Timer1"
      let cfg2 := { cfg with timer1 := some (TimerField.raw v) }
      pure { st with td := { st.td with tasmota_config := some cfg2 } }
    | "TIMER2" => do
      let v ← dictGet kvs "Timer2"
      let cfg2 := { cfg with timer2 := some (TimerField.raw v) }
      pure { st with td := { st.td with tasmota_config := some cfg2 } }
    | "TIMER3" => do
      let v ← dictGet kvs "Timer3"
      let cfg2 := { cfg with timer3 := some (TimerField.raw v) }
      pure { st with td := { st.td with tasmota_config := some cfg2 } }
    | "TIMER4" => do
      let v ← dictGet kvs "Timer4"
      let cfg2 := { cfg with timer4 := some (TimerField.raw v) }
      pure { st with td := { st.td with tasmota_config := some cfg2 } }
    | _ => some st

/-- One iteration of the per-device command loop: always publishes
(recording the `Publish`), then skips on publish failure, on either wait
timeout, or on a `Command="Unknown"` response; a non-dict response value
fails the `isinstance` assertion (fatal); otherwise the response is
applied. Returns the publish record and `none` for a fatal error. -/
def send_one_cmd (env : MqttEnv) (vt : Option (List PyVal)) (idx : Nat)
    (cmd : String) (st : CmdStepState) : Publish × Option CmdStepState :=
  let devTopic := pyStrOpt (st.td.tasmota_config.bind (fun c => c.topic))
  let to_send : Option PyVal :=
    match vt with
    | some l => if l.isEmpty then none else some (l.getD idx .pnone)
    | none => none
  let p : Publish := ⟨devTopic, cmd, to_send⟩
  let res : Option CmdStepState :=
    if !env.publish_ok p.topic then some st
    else
      match env.response p.topic with
      | none => some st
      | some v =>
        match v with
        | .pdict kvs =>
          (match dictGet kvs "Command" with
           | some (.pstr s) =>
             if s = "Unknown" then some st else apply_cmd_response cmd kvs st
           | _ => apply_cmd_response cmd kvs st)
        | _ => none
  (p, res)

/-- The command loop over one online device, threading the state and
collecting the publish trace; a fatal error stops the loop but keeps the
publishes made so far. -/
def run_cmds (env : MqttEnv) (vt : Option (List PyVal)) :
    List String → Nat → CmdStepState → Option CmdStepState × List Publish
  | [], _, st => (some st, [])
  | cmd :: rest, idx, st =>
    let (p, r) := send_one_cmd env vt idx cmd st
    match r with
    | none => (none, [p])
    | some st2 =>
      let (res, tr) := run_cmds env vt rest (idx + 1) st2
      (res, p :: tr)

/-- After the command loop: a non-empty timezone accumulator replaces the
device's `timezoneconfig` with a freshly validated `TasmotaTimezoneConfig`
(validation failure is fatal). -/
def finalize_tz (st : CmdStepState) : Option TasmotaDevice :=
  if st.tzconfig.isEmpty then some st.td
  else
    match st.td.tasmota_config with
    | none => none
    | some cfg =>
      (TasmotaTimezoneConfig.parse st.tzconfig).map (fun tzc =>
        { st.td with tasmota_config := some { cfg with timezoneconfig := some tzc } })

/-- Dispatch of all commands to one online device: asserts the config is
present, seeds the timezone accumulator from `model_dump()` of the
current timezone config, runs the command loop, then finalizes. -/
def dispatch_device (env : MqttEnv) (cmds : List String)
    (td : TasmotaDevice) (vt : Option (List PyVal)) :
    Option TasmotaDevice × List Publish :=
  match td.tasmota_config with
  | none => (none, [])
  | some cfg =>
    let st0 : CmdStepState :=
      ⟨td, (cfg.timezoneconfig.map TasmotaTimezoneConfig.model_dump).getD []⟩
    let (res, tr) := run_cmds env vt cmds 0 st0
    match res with
    | none => (none, tr)
    | some st => (finalize_tz st, tr)

/-- The dispatch loop over the online partition (device index in the
input list, device, its value list), sequential and short-circuiting on
a fatal error while keeping the accumulated publish trace. -/
def dispatch_all (env : MqttEnv) (cmds : List String) :
    List (Nat × TasmotaDevice × Option (List PyVal)) →
    Option (List (Nat × TasmotaDevice)) × List Publish
  | [] => (some [], [])
  | (i, td, vt) :: rest =>
    let (r, tr) := dispatch_device env cmds td vt
    match r with
    | none => (none, tr)
    | some td2 =>
      let (res, tr2) := dispatch_all env cmds rest
      match res with
      | none => (none, tr ++ tr2)
      | some updated => (some ((i, td2) :: updated), tr ++ tr2)

/-- Tag each device/value pair with its position in the input list (the
position stands for Python object identity, so that in-place mutation can
be written back). -/
def indexDevices : Nat → List (TasmotaDevice × Option (List PyVal)) →
    List (Nat × TasmotaDevice × Option (List PyVal))
  | _, [] => []
  | i, (td, vt) :: rest => (i, td, vt) :: indexDevices (i + 1) rest

/-- The partition loop of `send_cmds_to_online_tasmotas`: asserts each
device has a config, keeps online devices (with their value list), skips
offline ones, and asserts that a truthy value list has exactly one value
per command. `none` models a fatal assertion failure. -/
def partition_step (cmds : List String) (i : Nat) (td : TasmotaDevice)
    (vt : Option (List PyVal))
    (rest : Option (List (Nat × TasmotaDevice × Option (List PyVal)))) :
    Option (List (Nat × TasmotaDevice × Option (List PyVal))) :=
  match td.tasmota_config with
  | none => none
  | some _ =>
    if td.is_online then
      match vt with
      | some l =>
        if l.isEmpty then rest.map (fun r => (i, td, vt) :: r)
        else if l.length = cmds.length then rest.map (fun r => (i, td, vt) :: r)
        else none
      | none => rest.map (fun r => (i, td, vt) :: r)
    else rest

/-- The partition loop over the whole indexed input list. -/
def partition_online (cmds : List String) :
    List (Nat × TasmotaDevice × Option (List PyVal)) →
    Option (List (Nat × TasmotaDevice × Option (List PyVal)))
  | [] => some []
  | (i, td, vt) :: rest => partition_step cmds i td vt (partition_online cmds rest)

/-- Write the updated online devices back at their original positions:
the source mutates the shared device objects in place and returns the
input list. -/
def substitute_updated (ts : List TasmotaDevice)
    (upds : List (Nat × TasmotaDevice)) : List TasmotaDevice :=
  upds.foldl (fun acc iu => acc.set iu.1 iu.2) ts

/-- `MqttCommander.send_cmds_to_online_tasmotas`: defaults the command
set and the per-device values (Python `or`, so an empty list also takes
the default), asserts one value entry per device, partitions by
`is_online()`, dispatches sequentially to the online partition, and
returns the input list with the online devices updated in place, paired
with the publish trace. The first component is `none` when an
assertion/validation error aborts the run. -/
def send_cmds_to_online_tasmotas (env : MqttEnv) (tasmotas : List TasmotaDevice)
    (to_be_used_commands : Option (List String))
    (values_to_send : Option (List (Option (List PyVal)))) :
    Option (List TasmotaDevice) × List Publish :=
  let cmds := pyOrList to_be_used_commands default_commands
  let values := pyOrList values_to_send (tasmotas.map (fun _ => none))
  if values.length ≠ tasmotas.length then (none, [])
  else
    let indexed := indexDevices 0 (tasmotas.zip values)
    match partition_online cmds indexed with
    | none => (none, [])
    | some onlinePart =>
      let (res, tr) := dispatch_all env cmds onlinePart
      match res with
      | none => (none, tr)
      | some updated => (some (substitute_updated tasmotas updated), tr)

/-- The default timezone configuration of
`ensure_correct_timezone_settings_for_tasmotas` (latitude `53.6437753`,
longitude `9.8940783`, DST rule `0,0,3,1,1,120`, STD rule `0,0,10,1,1,60`,
timezone `99`). -/
def default_ensure_tzconfig : Option TasmotaTimezoneConfig := do
  let dst ← TasmotaTimeZoneDSTSTD.from_tasmota_command_string "0,0,3,1,1,120"
  let std ← TasmotaTimeZoneDSTSTD.from_tasmota_command_string "0,0,10,1,1,60"
  pure ⟨some ⟨536437753, 7⟩, some ⟨98940783, 7⟩, some dst, some std, some (.tint 99)⟩

/-- The 5-command update set of the timezone-correction workflow. -/
def ensure_to_be_sent_commands : List String :=
  ["Latitude", "Longitude", "TimeDST", "TimeSTD", "TimeZone"]

/-- The collection loop of `ensure_correct_timezone_settings_for_tasmotas`:
asserts config and timezone config are present for every device, and for
every online device whose `timezone != 99` appends the target config's
command list (whose construction asserts all five values are present) to
`values_to_send`. -/
def ensure_collect (tzcfg : TasmotaTimezoneConfig) :
    List TasmotaDevice → Option (List (Option (List PyVal)))
  | [] => some []
  | tdo :: rest =>
    match tdo.tasmota_config with
    | none => none
    | some cfg =>
      match cfg.timezoneconfig with
      | none => none
      | some tzc =>
        if tdo.is_online && decide (tzc.timezone ≠ some (TZVal.tint 99)) then do
          let vals ← tzcfg.as_tasmota_command_list
          let r ← ensure_collect tzcfg rest
          pure (some vals :: r)
        else ensure_collect tzcfg rest

/-- `MqttCommander.ensure_correct_timezone_settings_for_tasmotas`: builds
`values_to_send` for exactly the online devices with `timezone != 99`,
then calls `send_cmds_to_online_tasmotas` with the FULL `online_tasmotas`
list (exactly as the source does — the collected `to_be_updated_tasmotas`
list is built but never passed on). -/
def ensure_correct_timezone_settings_for_tasmotas (env : MqttEnv)
    (online_tasmotas : List TasmotaDevice)
    (timezoneconfig : Option TasmotaTimezoneConfig) :
    Option (List TasmotaDevice) × List Publish :=
  match (match timezoneconfig with | some c => some c | none => default_ensure_tzconfig) with
  | none => (none, [])
  | some tzcfg =>
    match ensure_collect tzcfg online_tasmotas with
    | none => (none, [])
    | some values =>
      send_cmds_to_online_tasmotas env online_tasmotas
        (some ensure_to_be_sent_commands) (some values)

/- ---------------------------------------------------------------------
`mqttcommander/cli.py` (attribute surface)
--------------------------------------------------------------------- -/

/-- The method names defined on `MqttCommander`
(`tasmotacommander.py`): Python attribute lookup on a commander instance
succeeds exactly for these names. -/
def mqttCommanderMethods : List String :=
  ["__init__", "apply_topic_filter", "get_all_retained", "start_loop_forever",
    "on_msg_received", "send_cmds_to_online_tasmotas",
    "ensure_correct_timezone_settings_for_tasmotas", "update_online_tasmotas",
    "read_tasmotas_from_file_update_save_to_file",
    "get_all_tasmota_devices_from_retained",
    "filter_online_tasmotas_from_retained"]

/-- The commander method name the CLI's `list-retained-msgs` branch
invokes (`cli.py:86`: `comm.get_all_retained_msgs(...)`). -/
def cli_list_retained_invoked_method : String := "get_all_retained_msgs"

/-- The commander method that actually implements retained-message
retrieval (`tasmotacommander.py:102`). -/
def commander_retained_retrieval_method : String := "get_all_retained"

/- ---------------------------------------------------------------------
Accessors and concrete instances used by the theorems
--------------------------------------------------------------------- -/

/-- Is a Python value a non-container (neither list nor dict)? -/
def PyVal.isScalar : PyVal → Bool
  | .plist _ => false
  | .pdict _ => false
  | _ => true

/-- The device topic exactly as interpolated into a `cmnd/<topic>/...`
publish topic (`"None"` for a device without a configured topic). -/
def device_topic_str (d : TasmotaDevice) : String :=
  pyStrOpt (d.tasmota_config.bind (fun c => c.topic))

/-- Does the publish trace contain a publish addressed to the given
device topic (i.e. to any `cmnd/<topic>/<command>` topic of it)? -/
def trace_targets_topic (tr : List Publish) (t : String) : Bool :=
  tr.any (fun p => p.devTopic == t)

/-- A timer object as it appears on the wire (all fields valid). -/
def timerPayload : PyVal :=
  .pdict [("Enable", .pint 1), ("Mode", .pint 0), ("Time", .pstr "22:00"),
    ("Window", .pint 0), ("Days", .pstr "1111111"), ("Repeat", .pint 1),
    ("Output", .pint 1), ("Action", .pint 1)]

/-- A discovery config payload carrying the compact key `Timer3`. -/
def payloadWithTimer3 : List (String × PyVal) :=
  [("t", .pstr "tasmota_X"), ("Timer3", timerPayload)]

/-- A discovery config payload carrying the compact key `Timer2`. -/
def payloadWithTimer2 : List (String × PyVal) :=
  [("t", .pstr "tasmota_X"), ("Timer2", timerPayload)]

/-- A device config whose `online_msg` is set to the empty string. -/
def cfgEmptyOnlineMsg : TasmotaDeviceConfig :=
  { TasmotaDeviceConfig.empty with online_msg := some "" }

/-- A device with `online_msg=""` whose LWT value is the (validated)
literal `"Online"`. -/
def devEmptyOnlineMsg : TasmotaDevice :=
  { TasmotaDevice.empty with
    tasmota_config := some cfgEmptyOnlineMsg
    lwt_current_value := some (.pstr "Online") }

/-- A device config with the custom online message `"Connected"`. -/
def cfgConnectedMsg : TasmotaDeviceConfig :=
  { TasmotaDeviceConfig.empty with online_msg := some "Connected" }

/-- A device with `online_msg="Connected"` and LWT value `"Connected"`. -/
def devConnected : TasmotaDevice :=
  { TasmotaDevice.empty with
    tasmota_config := some cfgConnectedMsg
    lwt_current_value := some (.pstr "Connected") }

/-- A device with `online_msg="Connected"` and LWT value `"Online"`. -/
def devConnectedLwtOnline : TasmotaDevice :=
  { TasmotaDevice.empty with
    tasmota_config := some cfgConnectedMsg
    lwt_current_value := some (.pstr "Online") }

/-- The retained discovery config message of §8 item 5: topic
`tasmota/discovery/AABBCC/config`, payload declaring `t="tasmota_X"`. -/
def discoCfgMsg : MWMqttMessage :=
  ⟨"tasmota/discovery/AABBCC/config", .pdict [("t", .pstr "tasmota_X")]⟩

/-- The retained LWT message `tele/tasmota_X/LWT` with payload `"Online"`. -/
def lwtOnlineMsg : MWMqttMessage :=
  ⟨"tele/tasmota_X/LWT", .pstr "Online"⟩

/-- The single device record the discovery aggregation builds from the
two messages above. -/
def expectedDiscoDevice : TasmotaDevice :=
  let cfg := { TasmotaDeviceConfig.empty with topic := some "tasmota_X" }
  { TasmotaDevice.empty with
    tasmota_config := some cfg
    lwt_current_value := some (.pstr "Online") }

/-- A timezone configuration whose `timezone` is already `99`. -/
def tzc99 : TasmotaTimezoneConfig := ⟨none, none, none, none, some (.tint 99)⟩

/-- A timezone configuration whose `timezone` is `3` (off target). -/
def tzc3 : TasmotaTimezoneConfig := ⟨none, none, none, none, some (.tint 3)⟩

/-- An online device (topic `tasmota_A`) already at timezone `99`. -/
def devTz99 : TasmotaDevice :=
  let cfg := { TasmotaDeviceConfig.empty with
    topic := some "tasmota_A"
    timezoneconfig := some tzc99 }
  { TasmotaDevice.empty with
    tasmota_config := some cfg
    lwt_current_value := some (.pstr "Online") }

/-- An online device (topic `tasmota_B`) at timezone `3`, i.e. in need of
the timezone update. -/
def devTz3 : TasmotaDevice :=
  let cfg := { TasmotaDeviceConfig.empty with
    topic := some "tasmota_B"
    timezoneconfig := some tzc3 }
  { TasmotaDevice.empty with
    tasmota_config := some cfg
    lwt_current_value := some (.pstr "Online") }

/-- An offline device with topic `tasmota_C` (no LWT value observed). -/
def devOfflineC : TasmotaDevice :=
  let cfg := { TasmotaDeviceConfig.empty with topic := some "tasmota_C" }
  { TasmotaDevice.empty with tasmota_config := some cfg }

/-- A broker environment whose publishes all succeed and whose responses
all time out. -/
def envAllOk : MqttEnv := ⟨fun _ => true, fun _ => none⟩

/- ---------------------------------------------------------------------
Theorems
--------------------------------------------------------------------- -/

/-- C2. The 6-element rule string `"0,0,3,1,1,120"` does NOT round-trip
through `from_tasmota_command_string` / `to_tasmota_command_string` back to
the same literal: serialization is `str(list).replace(" ","")`, which keeps
the surrounding brackets, producing `"[0,0,3,1,1,120]"`. -/
theorem dststd_roundtrip_not_literal :
    (TasmotaTimeZoneDSTSTD.from_tasmota_command_string "0,0,3,1,1,120").map
      TasmotaTimeZoneDSTSTD.to_tasmota_command_string ≠ some "0,0,3,1,1,120" := by
  decide

/-- C2 (amended). Parsing `"0,0,3,1,1,120"` and serializing again yields the
bracketed compact list form `"[0,0,3,1,1,120]"` (the exact field values are
recovered; only the surrounding brackets are added by serialization). -/
theorem dststd_roundtrip_bracketed :
    (TasmotaTimeZoneDSTSTD.from_tasmota_command_string "0,0,3,1,1,120").map
      TasmotaTimeZoneDSTSTD.to_tasmota_command_string = some "[0,0,3,1,1,120]" := by
  decide

/-- C1. Code bug, evaluated at the failing input: with two online devices
of which one already has `timezone == 99` (`devTz99`) and one does not
(`devTz3`), `ensure_correct_timezone_settings_for_tasmotas` collects one
value list but passes the FULL two-device list to
`send_cmds_to_online_tasmotas`, whose length assertion
`len(values_to_send) == len(tasmotas)` fails: the run aborts fatally with
no publish at all, instead of dispatching the 5-command update to
`devTz3` as the specification states. -/
theorem ensure_timezone_mixed_batch_fatal :
    ensure_correct_timezone_settings_for_tasmotas envAllOk [devTz99, devTz3] none
      = (none, []) := by
  rfl

/-- C3. Code bug, evaluated at the failing input: a discovery payload
carrying the compact key `Timer3` leaves `timer3` unset after parsing
(the alias list of `timer3` at `models.py:234` is `("Timer2", "timer3")`),
while a payload carrying `Timer2` populates BOTH `timer2` and `timer3`. -/
theorem timer3_wire_key_not_parsed :
    (TasmotaDeviceConfig.parse payloadWithTimer3).map (fun c => c.timer3.isSome)
      = some false ∧
    (TasmotaDeviceConfig.parse payloadWithTimer2).map (fun c => c.timer3.isSome)
      = some true ∧
    (TasmotaDeviceConfig.parse payloadWithTimer2).map (fun c => c.timer2.isSome)
      = some true := by
  refine ⟨rfl, rfl, rfl⟩

/-- C4 (counterexample). A device whose configuration sets
`online_msg = ""` and whose LWT value is `"Online"` is reported online by
`is_online()`, although its LWT value does not equal its configured
`online_msg`: the claimed equivalence fails because Python truthiness
skips the override for an empty string. -/
theorem is_online_empty_override_counterexample :
    devEmptyOnlineMsg.tasmota_config.isSome = true ∧
    (devEmptyOnlineMsg.tasmota_config.bind (fun c => c.online_msg)) = some "" ∧
    devEmptyOnlineMsg.is_online = true ∧
    lwtEqStr devEmptyOnlineMsg.lwt_current_value "" = false := by
  refine ⟨rfl, rfl, rfl, rfl⟩

/-- C4 (amended). For a device whose configuration sets `online_msg` to a
NON-EMPTY string, `is_online()` is true iff the LWT value equals that
string; for a device without a configured `online_msg` (config absent,
field absent, or set to the empty string, which Python truthiness treats
as unset) `is_online()` is true iff the LWT value equals the literal
`"Online"`. -/
theorem is_online_override_semantics :
    (∀ (d : TasmotaDevice) (cfg : TasmotaDeviceConfig) (m : String),
      d.tasmota_config = some cfg → cfg.online_msg = some m → m ≠ "" →
      (d.is_online = true ↔ lwtEqStr d.lwt_current_value m = true)) ∧
    (∀ (d : TasmotaDevice) (cfg : TasmotaDeviceConfig),
      d.tasmota_config = some cfg →
      (cfg.online_msg = none ∨ cfg.online_msg = some "") →
      (d.is_online = true ↔ lwtEqStr d.lwt_current_value "Online" = true)) ∧
    (∀ (d : TasmotaDevice), d.tasmota_config = none →
      (d.is_online = true ↔ lwtEqStr d.lwt_current_value "Online" = true)) := by
  refine ⟨?_, ?_, ?_⟩
  · intro d cfg m hcfg hmsg hne
    simp [TasmotaDevice.is_online, TasmotaDevice.is_online_with, hcfg, hmsg,
      pyTruthyOptStr, hne]
  · intro d cfg hcfg hmsg
    rcases hmsg with h | h <;>
      simp [TasmotaDevice.is_online, TasmotaDevice.is_online_with, hcfg, h,
        pyTruthyOptStr]
  · intro d hcfg
    simp [TasmotaDevice.is_online, TasmotaDevice.is_online_with, hcfg]

/-- C4 (witness). The amended override semantics applied to a concrete
device with `online_msg="Connected"` and LWT value `"Connected"`: it is
online. -/
theorem is_online_override_semantics_witness :
    devConnected.is_online = true :=
  (is_online_override_semantics.1 devConnected cfgConnectedMsg "Connected"
    rfl rfl (by decide)).mpr (by decide)

/-- C5. A retained batch of one `tasmota/discovery/AABBCC/config` message
declaring `t="tasmota_X"` and one `tele/tasmota_X/LWT` message with
payload `"Online"` aggregates (in either order) to exactly one device
record, whose config topic is `"tasmota_X"` and which `is_online()`
reports online: the config pass re-indexes the record under its declared
topic, so the LWT pass finds the same record. -/
theorem discovery_single_device_from_config_and_lwt :
    (get_all_tasmota_devices_from_retained (some default_drop_filter)
        (some [discoCfgMsg, lwtOnlineMsg]) = some [expectedDiscoDevice] ∧
      (expectedDiscoDevice.tasmota_config.bind (fun c => c.topic)) = some "tasmota_X" ∧
      expectedDiscoDevice.is_online = true) ∧
    get_all_tasmota_devices_from_retained (some default_drop_filter)
        (some [lwtOnlineMsg, discoCfgMsg]) = some [expectedDiscoDevice] := by
  refine ⟨⟨rfl, rfl, rfl⟩, rfl⟩

/-- C6. Code bug, stated on the attribute surface: the CLI's
`list-retained-msgs` branch invokes `get_all_retained_msgs` on the
commander, but `MqttCommander` defines no method of that name (its
retained-message retrieval is `get_all_retained`), so Python attribute
lookup raises `AttributeError` and the action cannot complete. -/
theorem cli_list_retained_missing_method :
    cli_list_retained_invoked_method ∉ mqttCommanderMethods ∧
    commander_retained_retrieval_method ∈ mqttCommanderMethods ∧
    cli_list_retained_invoked_method ≠ commander_retained_retrieval_method := by
  decide

/-- C10 (counterexample). Model validation accepts the LWT value
`"Online"`, yet a device carrying it whose configuration sets
`online_msg = ""` — a string other than `"Online"`/`"Offline"` — is
reported online by `is_online()`: the claimed consequence fails for the
empty string, whose override Python truthiness skips. -/
theorem lwt_validated_empty_override_counterexample :
    lwtLiteralValid devEmptyOnlineMsg.lwt_current_value = true ∧
    (devEmptyOnlineMsg.tasmota_config.bind (fun c => c.online_msg)) = some "" ∧
    ("" = "Online" ∨ "" = "Offline") = False ∧
    devEmptyOnlineMsg.is_online = true := by
  refine ⟨rfl, rfl, by simp, rfl⟩

/-- C10 (amended). Model validation only lets `lwt_current_value` be
absent (`none`, or an assigned JSON null) or one of the literals
`"Online"`/`"Offline"`; consequently, for a device whose configuration
sets `online_msg` to a NON-EMPTY string other than those two literals
(e.g. `"Connected"`), no validated LWT value makes `is_online()` true. -/
theorem lwt_literal_validation_invariant :
    (∀ (lwt : Option PyVal), lwtLiteralValid lwt = true →
      lwt = none ∨ lwt = some .pnone ∨ lwt = some (.pstr "Online") ∨
        lwt = some (.pstr "Offline")) ∧
    (∀ (d : TasmotaDevice) (cfg : TasmotaDeviceConfig) (m : String),
      d.tasmota_config = some cfg → cfg.online_msg = some m →
      m ≠ "" → m ≠ "Online" → m ≠ "Offline" →
      lwtLiteralValid d.lwt_current_value = true →
      d.is_online = false) := by
  constructor
  · intro lwt h
    match lwt with
    | none => exact Or.inl rfl
    | some .pnone => exact Or.inr (Or.inl rfl)
    | some (.pstr s) =>
      rcases (by simpa [lwtLiteralValid] using h : s = "Online" ∨ s = "Offline") with
        rfl | rfl
      · exact Or.inr (Or.inr (Or.inl rfl))
      · exact Or.inr (Or.inr (Or.inr rfl))
    | some (.pbool b) => simp [lwtLiteralValid] at h
    | some (.pint n) => simp [lwtLiteralValid] at h
    | some (.pfloat a b) => simp [lwtLiteralValid] at h
    | some (.plist xs) => simp [lwtLiteralValid] at h
    | some (.pdict kvs) => simp [lwtLiteralValid] at h
  · intro d cfg m hcfg hmsg hne hno hnf hval
    match hl : d.lwt_current_value with
    | none => simp [TasmotaDevice.is_online, TasmotaDevice.is_online_with, hcfg,
        hmsg, pyTruthyOptStr, hne, hl, lwtEqStr]
    | some v =>
      rw [hl] at hval
      match v with
      | .pnone => simp [TasmotaDevice.is_online, TasmotaDevice.is_online_with,
          hcfg, hmsg, pyTruthyOptStr, hne, hl, lwtEqStr]
      | .pstr s =>
        rcases (by simpa [lwtLiteralValid] using hval : s = "Online" ∨ s = "Offline") with
          rfl | rfl <;>
          simp [TasmotaDevice.is_online, TasmotaDevice.is_online_with, hcfg,
            hmsg, pyTruthyOptStr, hne, hl, lwtEqStr, Ne.symm hno, Ne.symm hnf]
      | .pbool b => simp [lwtLiteralValid] at hval
      | .pint n => simp [lwtLiteralValid] at hval
      | .pfloat a b => simp [lwtLiteralValid] at hval
      | .plist xs => simp [lwtLiteralValid] at hval
      | .pdict kvs => simp [lwtLiteralValid] at hval

/-- C10 (witness). The invariant applied to a concrete validated device
with `online_msg="Connected"` and LWT value `"Online"`: it is offline. -/
theorem lwt_literal_validation_invariant_witness :
    devConnectedLwtOnline.is_online = false :=
  lwt_literal_validation_invariant.2 devConnectedLwtOnline cfgConnectedMsg
    "Connected" rfl rfl (by decide) (by decide) (by decide) rfl

/-- Helper: the inner prefix loop of the topic filter appends the message
once per prefix it does not match, i.e. a replicate of the non-match
count. -/
theorem prefixKeep_eq_replicate (m : MWMqttMessage) (fs : List String) :
    fs.filterMap (fun sw => if strStartsWith m.topic sw then none else some m) =
      List.replicate (fs.countP (fun sw => !strStartsWith m.topic sw)) m := by
  induction fs with
  | nil => rfl
  | cons a l ih =>
    by_cases h : strStartsWith m.topic a = true
    · simp [List.filterMap_cons, List.countP_cons, h, ih]
    · simp [List.filterMap_cons, List.countP_cons, h, ih, List.replicate_succ]

/-- Helper: with a single prefix the per-message expansion collapses to a
filter keeping the non-matching messages in order. -/
theorem singleDropFilter_eq_filter (p : String) (ms : List MWMqttMessage) :
    ms.flatMap (fun m =>
        [p].filterMap (fun sw => if strStartsWith m.topic sw then none else some m)) =
      ms.filter (fun m => !strStartsWith m.topic p) := by
  have hone : ∀ m : MWMqttMessage,
      [p].filterMap (fun sw => if strStartsWith m.topic sw then none else some m) =
        if strStartsWith m.topic p then [] else [m] := by
    intro m
    by_cases h : strStartsWith m.topic p = true <;> simp [List.filterMap, h]
  rw [funext hone]
  induction ms with
  | nil => rfl
  | cons m rest ih =>
    by_cases h : strStartsWith m.topic p = true <;>
      simp [List.flatMap_cons, List.filter_cons, h, ih]

/-- C7. Topic-filter semantics: with exactly one configured drop prefix,
`apply_topic_filter` keeps exactly the messages whose topic does not
start with that prefix, in input order (collapsing an empty result to the
no-messages sentinel); with any configured prefix list, each input
message appears in the output once per configured prefix its topic does
not start with — the duplicate-append behavior, with no deduplication. -/
theorem apply_topic_filter_spec :
    (∀ (p : String) (ms : List MWMqttMessage),
      apply_topic_filter (some [p]) (some ms) =
        (if (ms.filter (fun m => !strStartsWith m.topic p)).isEmpty then none
         else some (ms.filter (fun m => !strStartsWith m.topic p)))) ∧
    (∀ (fs : List String) (ms : List MWMqttMessage),
      apply_topic_filter (some fs) (some ms) =
        (if (ms.flatMap (fun m =>
            List.replicate (fs.countP (fun sw => !strStartsWith m.topic sw)) m)).isEmpty
         then none
         else some (ms.flatMap (fun m =>
            List.replicate (fs.countP (fun sw => !strStartsWith m.topic sw)) m)))) := by
  have hrw : ∀ (fs : List String) (ms : List MWMqttMessage),
      ms.flatMap (fun m =>
        fs.filterMap (fun sw => if strStartsWith m.topic sw then none else some m)) =
      ms.flatMap (fun m =>
        List.replicate (fs.countP (fun sw => !strStartsWith m.topic sw)) m) := by
    intro fs ms
    exact congrArg _ (funext (fun m => prefixKeep_eq_replicate m fs))
  constructor
  · intro p ms
    show (let ret := ms.flatMap (fun m =>
        [p].filterMap (fun sw => if strStartsWith m.topic sw then none else some m));
      if ret.isEmpty then none else some ret) = _
    rw [singleDropFilter_eq_filter]
  · intro fs ms
    show (let ret := ms.flatMap (fun m =>
        fs.filterMap (fun sw => if strStartsWith m.topic sw then none else some m));
      if ret.isEmpty then none else some ret) = _
    rw [hrw]

/-- Helper: the position-wise merge preserves the shorter of the two
lengths. -/
theorem updArr_length : ∀ (bs us : List PyVal),
    (updArr bs us).length = min bs.length us.length := by
  intro bs
  induction bs with
  | nil => intro us; cases us <;> simp [updArr]
  | cons b bs2 ih =>
    intro us
    cases us with
    | nil => simp [updArr]
    | cons v vs => simp [updArr, ih]; omega

/-- Helper: the resize step produces exactly the requested length. -/
theorem resizeToLen_length (bs : List PyVal) (n : Nat) :
    (resizeToLen bs n).length = n := by
  simp [resizeToLen, List.length_take, List.length_append, List.length_replicate]
  omega

/-- Helper: a position-wise merge with only scalar update elements
overwrites every position, reproducing the update list, provided the base
is long enough. -/
theorem updArr_scalar : ∀ (us bs : List PyVal),
    us.all PyVal.isScalar = true → us.length ≤ bs.length → updArr bs us = us := by
  intro us
  induction us with
  | nil =>
    intro bs _ _
    cases bs <;> simp [updArr]
  | cons v vs ih =>
    intro bs hall hlen
    cases bs with
    | nil => simp at hlen
    | cons b bs2 =>
      simp only [List.all_cons, Bool.and_eq_true] at hall
      have hlen2 : vs.length ≤ bs2.length := by
        simpa using Nat.le_of_succ_le_succ hlen
      cases v <;> simp_all [updArr, PyVal.isScalar]

/-- Helper: a list update consisting of scalars replaces the base list's
content entirely (after the resize, every index is overwritten). -/
theorem update_deep_scalar_list (bs us : List PyVal)
    (h : us.all PyVal.isScalar = true) :
    update_deep (.plist bs) (.plist us) = .plist us := by
  have hlen : us.length ≤ (resizeToLen bs us.length).length := by
    rw [resizeToLen_length]
  simp only [update_deep, PyVal.listElems]
  rw [updArr_scalar us _ h hlen]

/-- C9. List semantics of `update_deep`: the result of a list update
always has exactly the update's length (the base is truncated or
null-padded first); an all-scalar update overwrites every position,
so `update_deep([1,2,3], [9]) = [9]` and
`update_deep([1], [1,2]) = [1,2]` (length 2, index 1 taken from the
update). -/
theorem update_deep_list_resize_semantics :
    (∀ (bs us : List PyVal),
      (update_deep (.plist bs) (.plist us)).listElems.length = us.length) ∧
    (∀ (bs us : List PyVal), us.all PyVal.isScalar = true →
      update_deep (.plist bs) (.plist us) = .plist us) ∧
    update_deep (.plist [.pint 1, .pint 2, .pint 3]) (.plist [.pint 9])
      = .plist [.pint 9] ∧
    (update_deep (.plist [.pint 1]) (.plist [.pint 1, .pint 2])
      = .plist [.pint 1, .pint 2] ∧
      (update_deep (.plist [.pint 1]) (.plist [.pint 1, .pint 2])).listElems.length = 2) := by
  refine ⟨?_, ?_, ?_, ?_, ?_⟩
  · intro bs us
    simp [update_deep, PyVal.listElems, updArr_length, resizeToLen_length]
  · intro bs us h
    exact update_deep_scalar_list bs us h
  · exact update_deep_scalar_list _ _ (by rfl)
  · exact update_deep_scalar_list _ _ (by rfl)
  · rw [update_deep_scalar_list _ _ (by rfl)]
    rfl

/-- C9 (witness). The scalar-overwrite law applied at a concrete input
with its hypothesis discharged. -/
theorem update_deep_list_resize_semantics_witness :
    update_deep (.plist [.pint 5]) (.plist [.pint 7, .pint 8])
      = .plist [.pint 7, .pint 8] :=
  update_deep_list_resize_semantics.2.1 [.pint 5] [.pint 7, .pint 8] (by rfl)

/-- Helper: applying a command response never changes the topic used to
address the device (every branch either leaves the config untouched or
replaces a non-topic field of it). -/
theorem apply_cmd_response_topic (cmd : String) (kvs : List (String × PyVal))
    (st st2 : CmdStepState) (h : apply_cmd_response cmd kvs st = some st2) :
    device_topic_str st2.td = device_topic_str st.td := by
  unfold apply_cmd_response at h
  split at h
  · simp at h
  · rename_i cfg hc
    split at h <;>
    · simp only [Option.pure_def, Option.bind_eq_bind', Option.bind_eq_some,
        Option.some.injEq] at h
      first
        | (obtain ⟨v1, hv1, v2, hv2, h2⟩ := h
           subst h2
           simp [device_topic_str, hc])
        | (obtain ⟨v1, hv1, h2⟩ := h
           subst h2
           simp [device_topic_str, hc])
        | (subst h
           simp [device_topic_str, hc])

/-- Helper: the publish record of one command iteration addresses the
current device topic. -/
theorem send_one_cmd_fst (env : MqttEnv) (vt : Option (List PyVal)) (idx : Nat)
    (cmd : String) (st : CmdStepState) :
    (send_one_cmd env vt idx cmd st).1.devTopic = device_topic_str st.td := rfl

/-- Helper: one command iteration never changes the device topic. -/
theorem send_one_cmd_topic (env : MqttEnv) (vt : Option (List PyVal)) (idx : Nat)
    (cmd : String) (st st2 : CmdStepState)
    (h : (send_one_cmd env vt idx cmd st).2 = some st2) :
    device_topic_str st2.td = device_topic_str st.td := by
  unfold send_one_cmd at h
  dsimp only at h
  split at h
  · injection h with h
    subst h
    rfl
  · split at h
    · injection h with h
      subst h
      rfl
    · split at h
      · split at h
        · split at h
          · injection h with h
            subst h
            rfl
          · exact apply_cmd_response_topic _ _ _ _ h
        · exact apply_cmd_response_topic _ _ _ _ h
      · simp at h

/-- Helper: every publish of the command loop addresses the initial
device topic, and the loop never changes it. -/
theorem run_cmds_props (env : MqttEnv) (vt : Option (List PyVal)) :
    ∀ (cmds : List String) (idx : Nat) (st : CmdStepState),
      (∀ p ∈ (run_cmds env vt cmds idx st).2, p.devTopic = device_topic_str st.td) ∧
      (∀ st2, (run_cmds env vt cmds idx st).1 = some st2 →
        device_topic_str st2.td = device_topic_str st.td) := by
  intro cmds
  induction cmds with
  | nil =>
    intro idx st
    constructor
    · intro p hp
      simp [run_cmds] at hp
    · intro st2 h
      simp [run_cmds] at h
      subst h
      rfl
  | cons cmd rest ih =>
    intro idx st
    rcases hsc : send_one_cmd env vt idx cmd st with ⟨p, r⟩
    have hfst := send_one_cmd_fst env vt idx cmd st
    rw [hsc] at hfst
    cases r with
    | none =>
      constructor
      · intro q hq
        simp [run_cmds, hsc] at hq
        subst hq
        exact hfst
      · intro st2 h
        simp [run_cmds, hsc] at h
    | some stm =>
      have hmid : device_topic_str stm.td = device_topic_str st.td :=
        send_one_cmd_topic env vt idx cmd st stm (by rw [hsc])
      obtain ⟨ihtr, ihres⟩ := ih (idx + 1) stm
      constructor
      · intro q hq
        simp [run_cmds, hsc] at hq
        rcases hq with rfl | hq
        · exact hfst
        · rw [ihtr q hq, hmid]
      · intro st2 h
        simp [run_cmds, hsc] at h
        rw [ihres st2 h, hmid]

/-- Helper: every publish of one device's dispatch addresses that
device's topic. -/
theorem dispatch_device_trace (env : MqttEnv) (cmds : List String)
    (td : TasmotaDevice) (vt : Option (List PyVal)) :
    ∀ p ∈ (dispatch_device env cmds td vt).2, p.devTopic = device_topic_str td := by
  intro p hp
  unfold dispatch_device at hp
  split at hp
  · simp at hp
  · rename_i cfg hc
    dsimp only at hp
    rcases hrc : run_cmds env vt cmds 0
        ⟨td, (cfg.timezoneconfig.map TasmotaTimezoneConfig.model_dump).getD []⟩
      with ⟨res, tr⟩
    rw [hrc] at hp
    have := (run_cmds_props env vt cmds 0
      ⟨td, (cfg.timezoneconfig.map TasmotaTimezoneConfig.model_dump).getD []⟩).1 p
    rw [hrc] at this
    cases res with
    | none => exact this hp
    | some stf => exact this hp

/-- Helper: every publish of the whole dispatch loop is addressed to the
topic of some entry of the online partition. -/
theorem dispatch_all_trace (env : MqttEnv) (cmds : List String) :
    ∀ (l : List (Nat × TasmotaDevice × Option (List PyVal))) (p : Publish),
      p ∈ (dispatch_all env cmds l).2 →
      ∃ x ∈ l, p.devTopic = device_topic_str x.2.1 := by
  intro l
  induction l with
  | nil =>
    intro p hp
    simp [dispatch_all] at hp
  | cons e rest ih =>
    rcases e with ⟨i, td, vt⟩
    intro p hp
    rcases hd : dispatch_device env cmds td vt with ⟨r, tr⟩
    have htr : ∀ q ∈ tr, q.devTopic = device_topic_str td := by
      intro q hq
      have := dispatch_device_trace env cmds td vt q
      rw [hd] at this
      exact this hq
    cases r with
    | none =>
      simp [dispatch_all, hd] at hp
      exact ⟨(i, td, vt), by simp, htr p hp⟩
    | some td2 =>
      rcases hda : dispatch_all env cmds rest with ⟨res2, tr2⟩
      have hp2 : p ∈ tr ++ tr2 := by
        cases res2 <;> simpa [dispatch_all, hd, hda] using hp
      rcases List.mem_append.mp hp2 with h1 | h2
      · exact ⟨(i, td, vt), by simp, htr p h1⟩
      · obtain ⟨x, hx, hxt⟩ := ih p (by rw [hda]; exact h2)
        exact ⟨x, by simp [hx], hxt⟩

/-- Helper: the online partition is a subset of the input and contains
only devices that report online. -/
theorem partition_online_mem (cmds : List String) :
    ∀ (l res : List (Nat × TasmotaDevice × Option (List PyVal))),
      partition_online cmds l = some res →
      ∀ x ∈ res, x ∈ l ∧ x.2.1.is_online = true := by
  intro l
  induction l with
  | nil =>
    intro res h x hx
    simp [partition_online] at h
    subst h
    simp at hx
  | cons e rest ih =>
    rcases e with ⟨i, td, vt⟩
    intro res h x hx
    have hstep : partition_step cmds i td vt (partition_online cmds rest)
        = some res := h
    unfold partition_step at hstep
    split at hstep
    · simp at hstep
    · split at hstep
      · (try split at hstep) <;> (try split at hstep) <;> (try split at hstep)
        all_goals first
          | exact Option.noConfusion hstep
          | (simp only [Option.map_eq_some'] at hstep
             obtain ⟨r, hr, hres⟩ := hstep
             subst hres
             rcases List.mem_cons.mp hx with rfl | hx2
             · refine ⟨List.mem_cons_self _ _, ?_⟩
               assumption
             · obtain ⟨hin, honx⟩ := ih r hr x hx2
               exact ⟨List.mem_cons_of_mem _ hin, honx⟩)
      · obtain ⟨hin, honx⟩ := ih res hstep x hx
        exact ⟨List.mem_cons_of_mem _ hin, honx⟩

/-- Helper: forgetting the position tags of `indexDevices` recovers
membership in the underlying pair list. -/
theorem indexDevices_mem :
    ∀ (l : List (TasmotaDevice × Option (List PyVal))) (i : Nat)
      (x : Nat × TasmotaDevice × Option (List PyVal)),
      x ∈ indexDevices i l → (x.2.1, x.2.2) ∈ l := by
  intro l
  induction l with
  | nil =>
    intro i x hx
    simp [indexDevices] at hx
  | cons e rest ih =>
    rcases e with ⟨td, vt⟩
    intro i x hx
    simp only [indexDevices, List.mem_cons] at hx
    rcases hx with rfl | hx
    · simp
    · exact List.mem_cons_of_mem _ (ih (i + 1) x hx)

/-- C8. An offline device in the input of `send_cmds_to_online_tasmotas`
(whose topic no online input device shares — devices are keyed by topic)
is never the target of any `cmnd/<topic>/<command>` publish during the
whole operation, for any command list and any broker behavior: the
dispatch loop runs only over the online partition of the input. -/
theorem send_cmds_offline_never_published
    (env : MqttEnv) (tasmotas : List TasmotaDevice)
    (to_be_used_commands : Option (List String))
    (values_to_send : Option (List (Option (List PyVal))))
    (d : TasmotaDevice) (hd : d ∈ tasmotas) (hoff : d.is_online = false)
    (hdist : ∀ e ∈ tasmotas, e.is_online = true →
      device_topic_str e ≠ device_topic_str d) :
    trace_targets_topic
      (send_cmds_to_online_tasmotas env tasmotas to_be_used_commands
        values_to_send).2
      (device_topic_str d) = false := by
  unfold send_cmds_to_online_tasmotas
  dsimp only
  split
  · rfl
  · split
    · rfl
    · rename_i onlinePart hp
      split <;>
      · dsimp only
        rw [trace_targets_topic, List.any_eq_false]
        intro q hq hbeq
        obtain ⟨x, hx, hxt⟩ := dispatch_all_trace env _ onlinePart q hq
        obtain ⟨hxin, hxon⟩ := partition_online_mem _ _ onlinePart hp x hx
        have hzip := indexDevices_mem _ 0 x hxin
        have hmem : x.2.1 ∈ tasmotas := (List.of_mem_zip hzip).1
        rw [hxt] at hbeq
        exact hdist x.2.1 hmem hxon (eq_of_beq hbeq)

/-- C8 (witness). The theorem applied to a concrete input: one online
device (`devTz3`, topic `tasmota_B`) and one offline device
(`devOfflineC`, topic `tasmota_C`) with commands `["RULE1"]`: no publish
of the run targets the offline device's topic. -/
theorem send_cmds_offline_never_published_witness :
    trace_targets_topic
      (send_cmds_to_online_tasmotas envAllOk [devTz3, devOfflineC]
        (some ["RULE1"]) none).2
      (device_topic_str devOfflineC) = false :=
  send_cmds_offline_never_published envAllOk [devTz3, devOfflineC]
    (some ["RULE1"]) none devOfflineC
    (List.mem_cons_of_mem _ (List.mem_cons_self _ _))
    (by rfl)
    (by
      intro e he hon
      rcases List.mem_cons.mp he with rfl | he2
      · decide
      · rcases List.mem_cons.mp he2 with rfl | he3
        · exact absurd hon (by decide)
        · simp at he3)
